import Mathlib

/-
Shallow embedding of pyBusPirateLite BitBang.py (class BitBang), the bitbang
mode command protocol of a Bus Pirate style serial device.  Stateful code is
embedded as explicit state passing over a session state that records the trace
of observable serial events; device input is an oracle listing the bytes each
read call receives.  Python floats are embedded as exact rationals, Python
exceptions as Except.error.  The collaborators from BBIO_base (response,
check_mode, enter_bb, the recurse retry helper) are not under src and are
modelled from the spec, as marked on their doc comments.
-/

set_option maxRecDepth 8000

deriving instance DecidableEq for Except

namespace BitBang

/-- Serial and session events observable at the collaborator interface:
byte writes, read-deadline settings, reads (requested count and the bytes
actually received), input-buffer flushes, and re-entry into bitbang mode. -/
inductive Ev where
  | write (b : Nat)
  | wait (t : ℚ)
  | read (n : Nat) (got : List Nat)
  | flush
  | enterBB
deriving DecidableEq

/-- Session state: the event trace so far, the oracle of byte chunks the
device delivers to successive read calls (a chunk may be short or empty when
the read times out), and the current session mode string. -/
structure St where
  events : List Ev
  oracle : List (List Nat)
  mode : String
deriving DecidableEq

/-- Python exceptions raised by this module.  In results of embedded
functions, Except.error models a raised exception and Except.ok a normal
return. -/
inductive PyErr where
  | nameError (n : String)
  | valueError (msg : String)
  | protocolError (msg : String)
  | modeError
  | retryBound
deriving DecidableEq

/-- Python return values of functions with no explicit return statement:
such a function returns None, which is falsy. -/
inductive PyVal where
  | none
  | int (n : Int)
deriving DecidableEq

/-- Python truthiness of a PyVal: None is falsy, an int is truthy iff
nonzero. -/
def PyVal.truthy : PyVal → Bool
  | .none => false
  | .int n => n != 0

/-- write(byte): transmit one byte over the serial link. -/
def write (b : Nat) (s : St) : St :=
  { s with events := s.events ++ [.write b] }

/-- timeout(t): set the pending-read deadline. -/
def timeout (t : ℚ) (s : St) : St :=
  { s with events := s.events ++ [.wait t] }

/-- Modelled from the spec: response(n, raw) of the external collaborator
interface (BBIO_base, not under src).  Per section 6 it blocks until n bytes
are available or the deadline passes and returns what arrived; the oracle
supplies the bytes each read call receives. -/
def response (n : Nat) (s : St) : List Nat × St :=
  match s.oracle with
  | [] => ([], { s with events := s.events ++ [.read n []] })
  | g :: rest => (g, { s with events := s.events ++ [.read n g], oracle := rest })

/-- flushInput(): discard buffered unread input. -/
def flushInput (s : St) : St :=
  { s with events := s.events ++ [.flush] }

/-- Modelled from the spec: enter_bb() of BBIO_base (not under src)
re-performs the handshake into bitbang mode. -/
def enter_bb (s : St) : St :=
  { s with events := s.events ++ [.enterBB], mode := "bb" }

/-- Modelled from the spec: check_mode(name) of BBIO_base (not under src)
fails with a ModeError when the current session mode differs from name. -/
def check_mode (name : String) (s : St) : Except PyErr Unit :=
  if s.mode = name then .ok () else .error .modeError

/-- The two decode lines shared by adc and get_next_adc_voltage:
voltage = (ret[0] << 8) + ret[1]; voltage = (voltage * 6.6) / 1024. -/
def adc_voltage (ret : List Nat) : ℚ :=
  let voltage : Nat := (ret.getD 0 0) <<< 8 + ret.getD 1 0
  ((voltage : ℚ) * 6.6) / 1024

/-- The adc property: single-shot ADC read. -/
def adc (minDelay : ℚ) (s : St) : ℚ × St :=
  let s := write 0x14 s
  let s := timeout minDelay s
  let (ret, s) := response 2 s
  (adc_voltage ret, s)

/-- start_getting_adc_voltages: begin continuous ADC streaming. -/
def start_getting_adc_voltages (s : St) : St :=
  write 0x15 s

/-- get_next_adc_voltage.  The self re-invocation through the Retry Helper
(recurse and recurse_end of BBIO_base, not under src) is modelled from the
spec as bounded re-invocation: fuel counts the remaining re-invocations and
recurse_end, the stop sentinel, simply terminates the chain. -/
def get_next_adc_voltage (fuel : Nat) (s : St) : Option ℚ × St :=
  match fuel with
  | 0 => (Option.none, s)
  | fuel + 1 =>
    let (ret, s) := response 2 s
    let voltage := adc_voltage ret
    if voltage < 10 then
      (some voltage, s)
    else
      let (_, s) := response 1 s
      let s := flushInput s
      get_next_adc_voltage fuel s

/-- The for-loop of stop_getting_adc_voltages: up to n iterations of
write 0x00 then a one-byte read, breaking at the first truthy (non-empty)
read result. -/
def drainProbe (n : Nat) (s : St) : St :=
  match n with
  | 0 => s
  | n + 1 =>
    let s := write 0x00 s
    let (r, s) := response 1 s
    if r ≠ [] then s else drainProbe n s

/-- stop_getting_adc_voltages. -/
def stop_getting_adc_voltages (s : St) : Except PyErr Nat × St :=
  match check_mode ("adc") s with
  | .error e => (.error e, s)
  | .ok _ =>
    let s := flushInput s
    let s := drainProbe 5 s
    let s := flushInput s
    let s := enter_bb s
    (.ok 1, s)

/-- selftest(complete). -/
def selftest (minDelay : ℚ) (complete : Bool) (s : St) : Except PyErr Nat × St :=
  let s := if complete = true then write 0x11 s else write 0x10 s
  let s := timeout (minDelay * 50) s
  let (errors, s) := response 1 s
  let s := write 0xff s
  let (ack, s) := response 1 s
  if ack ≠ [0x01] then
    (.error (.protocolError ("Self test did not return to bitbang mode")), s)
  else
    (.ok (errors.getD 0 0), s)

/-- Python int() applied to a rational: truncation toward zero. -/
def pyint (q : ℚ) : Int :=
  Int.tdiv q.num q.den

/-- Python x >> 8 on an int: floor division by 256 (arithmetic shift). -/
def pyShr8 (x : Int) : Int :=
  Int.fdiv x 256

/-- Python x & 0xFF on an int: the low byte in two-complement form, which is
x mod 256 taken nonnegative. -/
def pyAnd255 (x : Int) : Nat :=
  (x % 256).toNat

/-- setup_PWM(prescaler, dutycycle, period).  The function has no return
statement, so on an acknowledged setup it returns None (falsy). -/
def setup_PWM (minDelay : ℚ) (prescaler : Nat) (dutycycle period : Int) (s : St) :
    Except PyErr PyVal × St :=
  let s := write 0x12 s
  let s := write prescaler s
  let s := write (pyAnd255 (pyShr8 dutycycle)) s
  let s := write (pyAnd255 dutycycle) s
  let s := write (pyAnd255 (pyShr8 period)) s
  let s := write (pyAnd255 period) s
  let s := timeout (minDelay * 10) s
  let (ack, s) := response 1 s
  if ack ≠ [0x01] then
    (.error (.valueError ("Could not setup PWM mode")), s)
  else
    (.ok PyVal.none, s)

/-- disable_PWM. -/
def disable_PWM (minDelay : ℚ) (s : St) : Except PyErr PyVal × St :=
  let s := write 0x13 s
  let s := timeout (minDelay * 10) s
  let (ack, s) := response 1 s
  if ack ≠ [0x01] then
    (.error (.valueError ("Could not disable PWM mode")), s)
  else
    (.ok PyVal.none, s)

/-- PrescalerList = \x7b0: 1, 1: 8, 2: 64, 3: 256\x7d read in index order
n = 0..3. -/
def PrescalerList : List Nat := [1, 8, 64, 256]

/-- The for-else search of set_pwm_frequency: for each prescaler candidate,
PRy = int(PwmPeriod * 1.0 / (Tcy * Prescaler) - 1) and
OCR = int(PRy * DutyCycle); break at the first candidate with
PRy < 2 ^ 16 - 1, keeping (Prescaler, OCR, PRy); none when the loop
finishes without a break. -/
def findPwmParams (PwmPeriod Tcy DutyCycle : ℚ) : List Nat → Option (Nat × Int × Int)
  | [] => Option.none
  | Prescaler :: rest =>
    let PRy : Int := pyint (PwmPeriod * 1 / (Tcy * (Prescaler : ℚ)) - 1)
    let OCR : Int := pyint ((PRy : ℚ) * DutyCycle)
    if PRy < 2 ^ 16 - 1 then some (Prescaler, OCR, PRy)
    else findPwmParams PwmPeriod Tcy DutyCycle rest

/-- The local scope of set_pwm_frequency: the function parameters. -/
structure PwmLocals where
  frequency : ℚ
  dutycycle : ℚ

/-- Python name resolution inside the body of set_pwm_frequency: the local
scope binds frequency and dutycycle (and self); the module globals are only
serial, BBIO_base, BPError, ProtocolError and BitBang.  Any other numeric
name, in particular DutyCycle, is unbound and resolves to nothing, which in
Python raises NameError at the point of use. -/
def lookupPwmName (l : PwmLocals) (name : String) : Option ℚ :=
  if name = "frequency" then some l.frequency
  else if name = "dutycycle" then some l.dutycycle
  else Option.none

/-- The part of the set_pwm_frequency body from the constants Fosc, Tcy and
PwmPeriod to the end, parameterised by the rational value the name DutyCycle
would denote.  The call setup_PWM(prescaler=Prescaler, dutycycle=OCR,
period=PRy) passes Prescaler, the candidate value from PrescalerList, not
the loop index n.  On a raised exception inside setup_PWM the exception
propagates; on a normal return the returned None is falsy, so the success
branch (recurse_end; return 1) is taken only on a truthy value, and
otherwise the attempt ends with none, meaning the whole call is to be
re-invoked through the Retry Helper with identical inputs. -/
def pwm_attempt (minDelay frequency DutyCycle : ℚ) (s : St) :
    Option (Except PyErr Nat) × St :=
  let Fosc : ℚ := 24000000
  let Tcy : ℚ := 2 / Fosc
  let PwmPeriod : ℚ := 1 / frequency
  match findPwmParams PwmPeriod Tcy DutyCycle PrescalerList with
  | Option.none => (some (.error (.valueError ("frequency requested is invalid"))), s)
  | some (Prescaler, OCR, PRy) =>
    match setup_PWM minDelay Prescaler OCR PRy s with
    | (.error e, s) => (some (.error e), s)
    | (.ok v, s) =>
      if v.truthy then (some (.ok 1), s) else (Option.none, s)

/-- The fuel-bounded retry loop around pwm_attempt: a some result (a raised
exception or the truthy success return 1) is final; a none result (the falsy
None returned by an acknowledged setup_PWM) falls through to the re-invocation
through the Retry Helper, until the fuel bound stops the chain. -/
def set_pwm_frequency_body (minDelay frequency DutyCycle : ℚ) : Nat → St → Except PyErr Nat × St
  | 0, s =>
    match pwm_attempt minDelay frequency DutyCycle s with
    | (some r, s) => (r, s)
    | (Option.none, s) => (.error .retryBound, s)
  | fuel + 1, s =>
    match pwm_attempt minDelay frequency DutyCycle s with
    | (some r, s) => (r, s)
    | (Option.none, s) => set_pwm_frequency_body minDelay frequency DutyCycle fuel s

/-- set_pwm_frequency(frequency, dutycycle) as written in the source.  Its
first statement, the bound check, reads the name DutyCycle, which is not the
parameter (named dutycycle) and is bound nowhere, so name resolution fails
and NameError is raised there before anything else runs. -/
def set_pwm_frequency (minDelay frequency dutycycle : ℚ) (fuel : Nat) (s : St) :
    Except PyErr Nat × St :=
  match lookupPwmName ⟨frequency, dutycycle⟩ ("DutyCycle") with
  | Option.none => (.error (.nameError ("DutyCycle")), s)
  | some DutyCycle =>
    if DutyCycle > 1 then
      (.error (.valueError ("Duty cycle should be between 0 and 1")), s)
    else set_pwm_frequency_body minDelay frequency DutyCycle fuel s

/-- Modelled from the spec (section 4.4), to compare the source with the
intended behavior: identical to set_pwm_frequency except that every
occurrence of the unbound name DutyCycle is read as the dutycycle
parameter. -/
def set_pwm_frequency_fixed (minDelay frequency dutycycle : ℚ) (fuel : Nat) (s : St) :
    Except PyErr Nat × St :=
  if dutycycle > 1 then
    (.error (.valueError ("Duty cycle should be between 0 and 1")), s)
  else set_pwm_frequency_body minDelay frequency dutycycle fuel s

/-- The bytes transmitted in an event trace, in order. -/
def writesOf : List Ev → List Nat
  | [] => []
  | .write b :: rest => b :: writesOf rest
  | _ :: rest => writesOf rest

/-- The event trace of the drain loop when j empty reads precede the first
non-empty read with bytes g. -/
def probeTrace : Nat → List Nat → List Ev
  | 0, g => [.write 0x00, .read 1 g]
  | j + 1, g => .write 0x00 :: .read 1 [] :: probeTrace j g

/-- The event trace of the drain loop when every read comes back empty. -/
def emptyProbe : Nat → List Ev
  | 0 => []
  | n + 1 => .write 0x00 :: .read 1 [] :: emptyProbe n

theorem pyAnd255_natCast (n : Nat) : pyAnd255 (n : Int) = n &&& 0xFF := by
  have h : (n : Nat) &&& 0xFF = n % 256 := Nat.and_pow_two_sub_one_eq_mod n 8
  unfold pyAnd255
  omega

theorem pyAnd255_pyShr8_natCast (n : Nat) :
    pyAnd255 (pyShr8 (n : Int)) = (n >>> 8) &&& 0xFF := by
  have h1 : pyShr8 (n : Int) = ((n / 256 : Nat) : Int) := by
    simp [pyShr8, Int.fdiv_eq_ediv _ (by norm_num : (0 : Int) ≤ 256)]
  have h3 : n >>> 8 = n / 256 := Nat.shiftRight_eq_div_pow n 8
  have h2 : (n / 256) &&& 0xFF = (n / 256) % 256 := Nat.and_pow_two_sub_one_eq_mod _ 8
  rw [h1, h3, h2]
  unfold pyAnd255
  omega

theorem drainProbe_stops : ∀ (j n : Nat) (ev : List Ev) (g : List Nat)
    (rest : List (List Nat)) (m : String), j < n → g ≠ [] →
    drainProbe n ⟨ev, List.replicate j [] ++ g :: rest, m⟩ = ⟨ev ++ probeTrace j g, rest, m⟩ := by
  intro j
  induction j with
  | zero =>
    intro n ev g rest m hn hg
    match n, hn with
    | n + 1, _ => simp [drainProbe, write, response, probeTrace, hg]
  | succ j ih =>
    intro n ev g rest m hn hg
    match n, hn with
    | n + 1, _ =>
      have hj : j < n := by omega
      have step : drainProbe (n + 1) ⟨ev, List.replicate (j + 1) [] ++ g :: rest, m⟩
          = drainProbe n ⟨ev ++ [Ev.write 0x00, Ev.read 1 []],
              List.replicate j [] ++ g :: rest, m⟩ := by
        simp [drainProbe, write, response, List.replicate_succ]
      rw [step, ih n _ g rest m hj hg]
      simp [probeTrace]

theorem drainProbe_empty : ∀ (n : Nat) (ev : List Ev) (m : String),
    drainProbe n ⟨ev, [], m⟩ = ⟨ev ++ emptyProbe n, [], m⟩ := by
  intro n
  induction n with
  | zero => intro ev m; simp [drainProbe, emptyProbe]
  | succ n ih =>
    intro ev m
    have step : drainProbe (n + 1) ⟨ev, [], m⟩
        = drainProbe n ⟨ev ++ [Ev.write 0x00, Ev.read 1 []], [], m⟩ := by
      simp [drainProbe, write, response]
    rw [step, ih]
    simp [emptyProbe]

/-- Claim C2: for every pair of arguments, set_pwm_frequency fails with an
undefined-name error (NameError on the unresolved name DutyCycle, which the
bound check, the duty computation and the retry call all reference while the
parameter is named dutycycle) before any byte is transmitted, so no call
reaches the device write or returns success: the result is the NameError and
the session state is returned unchanged. -/
theorem set_pwm_frequency_always_nameError :
    ∀ (md frequency dutycycle : ℚ) (fuel : Nat) (s : St),
      set_pwm_frequency md frequency dutycycle fuel s =
        (.error (.nameError ("DutyCycle")), s) := by
  intro md f d fuel s
  rfl

unseal Rat.mul Rat.inv Rat.add Rat.sub Rat.ofScientific in
/-- Claim C1: at the claimed example frequency 1000 Hz with duty 0.5 the
source raises NameError on the unbound name DutyCycle instead of performing
the prescaler search, and the name-repaired variant, while indeed accepting
the first candidate (period 11999 = trunc((1/1000)/(Tcy*1)) - 1 < 65535 and
duty register 5999 = trunc(11999 * 0.5)), transmits the prescaler byte 0x01,
the candidate value PrescalerList[0], not the prescaler index 0 that the
claim says is handed to setup_PWM. -/
theorem set_pwm_frequency_example_divergence :
    set_pwm_frequency 1 1000 (1 / 2) 3 ⟨[], [[1]], "bb"⟩ =
      (.error (.nameError ("DutyCycle")), ⟨[], [[1]], "bb"⟩)
    ∧ writesOf (set_pwm_frequency_fixed 1 1000 (1 / 2) 0 ⟨[], [[1]], "bb"⟩).2.events =
        [0x12, 0x01, 23, 111, 46, 223] := by
  exact ⟨by decide, by decide⟩

unseal Rat.mul Rat.inv Rat.add Rat.sub Rat.ofScientific in
/-- Claim C5: with dutyCycleFraction = -0.5, outside [0, 1], the source
raises NameError (not an invalid-argument error) before transmitting, and
the name-repaired variant does not reject -0.5 at all: its bound check only
tests DutyCycle > 1, so the call proceeds to transmit a PWM configuration
(non-empty write trace) and never produces the duty-cycle ValueError. -/
theorem set_pwm_frequency_negative_duty_divergence :
    set_pwm_frequency 1 1000 (-(1 / 2)) 3 ⟨[], [[1]], "bb"⟩ =
      (.error (.nameError ("DutyCycle")), ⟨[], [[1]], "bb"⟩)
    ∧ (set_pwm_frequency_fixed 1 1000 (-(1 / 2)) 0 ⟨[], [[1]], "bb"⟩).1 ≠
        .error (.valueError ("Duty cycle should be between 0 and 1"))
    ∧ writesOf (set_pwm_frequency_fixed 1 1000 (-(1 / 2)) 0 ⟨[], [[1]], "bb"⟩).2.events ≠ [] := by
  exact ⟨by decide, by decide, by decide⟩

unseal Rat.mul Rat.inv Rat.add Rat.sub Rat.ofScientific in
/-- Claim C4: for every prescaler byte and all 16-bit (indeed all natural)
duty and period values, setup_PWM appends to the trace exactly the six
writes 0x12, prescaler, duty high byte, duty low byte, period high byte,
period low byte, in that order, before the single read of the response; in
particular (prescaler 0, duty 500, period 1000) transmits
0x12 0x00 0x01 0xF4 0x03 0xE8. -/
theorem setup_PWM_payload :
    (∀ (md : ℚ) (p duty period : Nat) (ev : List Ev) (orc : List (List Nat)) (m : String),
      ∃ g res,
        setup_PWM md p (duty : Int) (period : Int) ⟨ev, orc, m⟩ =
          (res, ⟨ev ++ [.write 0x12, .write p, .write ((duty >>> 8) &&& 0xFF),
                        .write (duty &&& 0xFF), .write ((period >>> 8) &&& 0xFF),
                        .write (period &&& 0xFF), .wait (md * 10), .read 1 g],
                 orc.tail, m⟩))
    ∧ writesOf ((setup_PWM 1 0 500 1000 ⟨[], [[1]], "bb"⟩).2.events) =
        [0x12, 0x00, 0x01, 0xF4, 0x03, 0xE8] := by
  constructor
  · intro md p duty period ev orc m
    cases orc with
    | nil =>
      refine ⟨[], .error (.valueError ("Could not setup PWM mode")), ?_⟩
      simp [setup_PWM, write, timeout, response, pyAnd255_natCast, pyAnd255_pyShr8_natCast]
    | cons c rest =>
      by_cases hc : c = [1]
      · refine ⟨c, .ok PyVal.none, ?_⟩
        simp [setup_PWM, write, timeout, response, pyAnd255_natCast, pyAnd255_pyShr8_natCast, hc]
      · refine ⟨c, .error (.valueError ("Could not setup PWM mode")), ?_⟩
        simp [setup_PWM, write, timeout, response, pyAnd255_natCast, pyAnd255_pyShr8_natCast, hc]
  · decide

unseal Rat.mul Rat.inv Rat.add Rat.sub Rat.ofScientific in
/-- Claim C3: with the payload (prescaler 0, duty 500, period 1000) and a
device acknowledgment byte 0x00 (not 0x01), setup_PWM raises ValueError
(Could not setup PWM mode) instead of returning a failure result; and on the
acknowledgment 0x01 it returns None (the function has no return statement),
which is falsy, so the truthiness test in set_pwm_frequency can never
observe success. -/
theorem setup_PWM_raises_instead_of_result :
    setup_PWM 1 0 500 1000 ⟨[], [[0x00]], "bb"⟩ =
      (.error (.valueError ("Could not setup PWM mode")),
       ⟨[.write 0x12, .write 0x00, .write 0x01, .write 0xF4, .write 0x03, .write 0xE8,
         .wait 10, .read 1 [0x00]], [], "bb"⟩)
    ∧ (setup_PWM 1 0 500 1000 ⟨[], [[0x01]], "bb"⟩).1 = .ok PyVal.none
    ∧ PyVal.none.truthy = false := by
  exact ⟨by decide, by decide, by decide⟩

/-- Claim C6: for every 2-byte device response (b0, b1), the adc read
appends exactly a write of the opcode 0x14, a wait of minDelay, and one read
of 2 bytes to the trace (so there is no retry), and returns the voltage
((b0 shifted left by 8) + b1) * 6.6 / 1024, with Python floats embedded as
exact rationals. -/
theorem adc_contract :
    ∀ (md : ℚ) (ev : List Ev) (b0 b1 : Nat) (rest : List (List Nat)) (m : String),
      adc md ⟨ev, [b0, b1] :: rest, m⟩ =
        ((((b0 <<< 8) + b1 : Nat) : ℚ) * 6.6 / 1024,
         ⟨ev ++ [.write 0x14, .wait md, .read 2 [b0, b1]], rest, m⟩) := by
  intro md ev b0 b1 rest m
  simp [adc, write, timeout, response, adc_voltage]

/-- Claim C7: one step of get_next_adc_voltage reads a 2-byte sample; when
the decoded value is strictly below 10 it ends the retry chain and returns
the value, consuming no further oracle input; when the decoded value is at
least 10 it consumes exactly one additional padding byte, flushes the
buffered input, and re-invokes itself with one unit of retry fuel spent. -/
theorem get_next_adc_voltage_step :
    ∀ (fuel : Nat) (ev : List Ev) (g g2 : List Nat) (rest : List (List Nat)) (m : String),
      get_next_adc_voltage (fuel + 1) ⟨ev, g :: g2 :: rest, m⟩ =
        if adc_voltage g < 10 then
          (some (adc_voltage g), ⟨ev ++ [.read 2 g], g2 :: rest, m⟩)
        else
          get_next_adc_voltage fuel ⟨ev ++ [.read 2 g, .read 1 g2, .flush], rest, m⟩ := by
  intro fuel ev g g2 rest m
  by_cases h : adc_voltage g < 10 <;>
    simp [get_next_adc_voltage, response, flushInput, h]

/-- Claim C8: selftest(complete) writes 0x11 when complete is true and 0x10
otherwise, waits minDelay * 50, reads 1 byte as the error count, writes
0xFF, reads 1 more byte, and returns the error count (an integer in
[0, 255] for a byte response) when the final acknowledgment equals 0x01 and
raises ProtocolError otherwise. -/
theorem selftest_contract :
    ∀ (md : ℚ) (complete : Bool) (ev : List Ev) (e a : Nat)
      (rest : List (List Nat)) (m : String), e < 256 →
      selftest md complete ⟨ev, [e] :: [a] :: rest, m⟩ =
        ((if a = 0x01 then .ok e
          else .error (.protocolError ("Self test did not return to bitbang mode"))),
         ⟨ev ++ [.write (if complete = true then 0x11 else 0x10), .wait (md * 50),
                 .read 1 [e], .write 0xff, .read 1 [a]], rest, m⟩)
      ∧ e ≤ 255 := by
  intro md complete ev e a rest m he
  refine ⟨?_, by omega⟩
  cases complete <;> by_cases h : a = 1 <;>
    simp [selftest, write, timeout, response, h]

/-- Witness for claim C8 at minDelay 1, complete = false, error count 3 and
acknowledgment 0x01: the short opcode 0x10 is sent and the error count 3 is
returned. -/
theorem selftest_contract_witness :
    (selftest 1 false ⟨[], [[3], [1]], "bb"⟩).1 = .ok 3 := by
  have h := (selftest_contract 1 false [] 3 1 [] "bb" (by norm_num)).1
  rw [h]
  decide

/-- Claim C9: stop_getting_adc_voltages invoked outside adc streaming mode
fails with ModeError leaving the state untouched (no byte written); invoked
in adc streaming mode it flushes input, probes with writes of 0x00 and
1-byte reads, stopping at the first non-empty read (after j empty reads it
performs exactly j + 1 probes, at most 5 when every read is empty), flushes
again, re-enters bitbang mode and returns success 1. -/
theorem stop_getting_adc_voltages_contract :
    (∀ s : St, s.mode ≠ "adc" → stop_getting_adc_voltages s = (.error .modeError, s))
    ∧ (∀ (ev : List Ev) (j : Nat) (g : List Nat) (rest : List (List Nat)),
        j ≤ 4 → g ≠ [] →
        stop_getting_adc_voltages ⟨ev, List.replicate j [] ++ g :: rest, "adc"⟩ =
          (.ok 1, ⟨ev ++ [.flush] ++ probeTrace j g ++ [.flush, .enterBB], rest, "bb"⟩))
    ∧ (∀ ev : List Ev,
        stop_getting_adc_voltages ⟨ev, [], "adc"⟩ =
          (.ok 1, ⟨ev ++ [.flush] ++ emptyProbe 5 ++ [.flush, .enterBB], [], "bb"⟩))
    ∧ (∀ (j : Nat) (g : List Nat), writesOf (probeTrace j g) = List.replicate (j + 1) 0x00)
    ∧ writesOf (emptyProbe 5) = List.replicate 5 0x00 := by
  refine ⟨?_, ?_, ?_, ?_, by decide⟩
  · intro s h
    simp [stop_getting_adc_voltages, check_mode, h]
  · intro ev j g rest hj hg
    have hd := drainProbe_stops j 5 (ev ++ [Ev.flush]) g rest "adc" (by omega) hg
    simp [stop_getting_adc_voltages, check_mode, flushInput, enter_bb, hd]
  · intro ev
    have hd := drainProbe_empty 5 (ev ++ [Ev.flush]) "adc"
    simp [stop_getting_adc_voltages, check_mode, flushInput, enter_bb, hd]
  · intro j g
    induction j with
    | zero => simp [probeTrace, writesOf]
    | succ j ih => simp [probeTrace, writesOf, ih, List.replicate_succ]

/-- Witness for claim C9: outside adc mode (mode bb) the call fails with
ModeError without writing, and in adc mode with a first non-empty read of
byte 7 the call probes once and succeeds. -/
theorem stop_getting_adc_voltages_contract_witness :
    stop_getting_adc_voltages ⟨[], [], "bb"⟩ = (.error .modeError, ⟨[], [], "bb"⟩)
    ∧ stop_getting_adc_voltages ⟨[], [[7]], "adc"⟩ =
        (.ok 1, ⟨[.flush, .write 0x00, .read 1 [7], .flush, .enterBB], [], "bb"⟩) := by
  constructor
  · exact stop_getting_adc_voltages_contract.1 ⟨[], [], "bb"⟩ (by decide)
  · have h := stop_getting_adc_voltages_contract.2.1 [] 0 [7] [] (by norm_num) (by decide)
    simpa [probeTrace] using h

/-- Claim C10: disable_PWM appends exactly a write of 0x13, a wait of
minDelay * 10 and a single 1-byte read to the trace (so it never retries),
succeeds when the response byte is 0x01, and otherwise fails with the
ValueError Could not disable PWM mode. -/
theorem disable_PWM_contract :
    ∀ (md : ℚ) (ev : List Ev) (a : Nat) (rest : List (List Nat)) (m : String),
      disable_PWM md ⟨ev, [a] :: rest, m⟩ =
        ((if a = 0x01 then .ok PyVal.none
          else .error (.valueError ("Could not disable PWM mode"))),
         ⟨ev ++ [.write 0x13, .wait (md * 10), .read 1 [a]], rest, m⟩) := by
  intro md ev a rest m
  by_cases h : a = 1 <;> simp [disable_PWM, write, timeout, response, h]

end BitBang
